import Mathlib

/-!
Verification development for the nrfdfu-ble DFU client.

The definitions below are a shallow embedding of `src/protocol.rs`,
`src/package.rs` and `src/main.rs`: pure functions become Lean functions,
the async control/data channel is modelled by explicit oracles describing
the device's / transport's behaviour, and fallible operations return
explicit outcome types.  Machine integers (`u32`) are modelled as `Nat`
with explicit `% 2^32` where Rust truncates.
-/

/-! ## CRC-32 (crc32fast, IEEE 802.3 reflected polynomial)

`fn crc32(buf: &[u8], init: u32) -> u32` in `protocol.rs` uses
`crc32fast::Hasher::new_with_initial(init)`: the hasher state is the
finalized CRC form, so `update` complements, folds the table step over
the bytes, and complements again.  `crcTableEntry i` is the classic
8-round table entry for byte `i`. -/

def CRC32_POLY : Nat := 0xEDB88320

def crcTableEntry (i : Nat) : Nat :=
  (List.range 8).foldl (fun c _ => if c % 2 = 1 then (c / 2) ^^^ CRC32_POLY else c / 2) i

def crcStep (state byte : Nat) : Nat :=
  (state / 2 ^ 8) ^^^ crcTableEntry ((state ^^^ byte) % 2 ^ 8)

def crc32 (buf : List Nat) (init : Nat) : Nat :=
  (buf.foldl crcStep (init ^^^ 0xFFFFFFFF)) ^^^ 0xFFFFFFFF

theorem Nat.xor_cancel_mask (x m : Nat) : (x ^^^ m) ^^^ m = x := by
  rw [Nat.xor_assoc, Nat.xor_self, Nat.xor_zero]

theorem crc32_nil (i : Nat) : crc32 [] i = i := by
  simp [crc32, Nat.xor_cancel_mask]

/-- Chaining a continuable CRC over consecutive chunks, with any initial
value, computes the CRC of the concatenation. -/
theorem crc32_append (a b : List Nat) (i : Nat) :
    crc32 b (crc32 a i) = crc32 (a ++ b) i := by
  simp [crc32, Nat.xor_cancel_mask, List.foldl_append]

/-- C7: for all byte sequences `a` and `b`,
`crc32(b, crc32(a, 0)) = crc32(a ++ b, 0)`: passing the previous result as
the initial value of the next chunk yields the CRC-32 of the
concatenation. -/
theorem C7_crc32_chaining (a b : List Nat) :
    crc32 b (crc32 a 0) = crc32 (a ++ b) 0 :=
  crc32_append a b 0

/-! ## Response validation (`DfuTarget::verify_response`)

`ResponseCode::try_from` succeeds exactly on the ten discriminants of the
`ResponseCode` enum; `ExtError::try_from` succeeds on 0x00..=0x0D.
Indexing a slice out of range in Rust aborts; that outcome is modelled
explicitly as `.panic`. -/

def ResponseCodeValid (b : Nat) : Bool :=
  decide (b = 0x00 ∨ b = 0x01 ∨ b = 0x02 ∨ b = 0x03 ∨ b = 0x04 ∨ b = 0x05 ∨
          b = 0x07 ∨ b = 0x08 ∨ b = 0x0A ∨ b = 0x0B)

def ExtErrorValid (b : Nat) : Bool :=
  decide (b ≤ 0x0D)

inductive VerifyErr where
  | tooShort
  | badResponseByte
  | badOpcodeEcho
  | invalidResponseCode (b : Nat)
  | extError (b : Nat)
  | invalidExtCode (b : Nat)
  | responseError (b : Nat)
deriving DecidableEq, Repr

inductive VerifyOutcome where
  | ok
  | err (e : VerifyErr)
  | panic
deriving DecidableEq, Repr

def verify_response (reqOpcode : Nat) (bytes : List Nat) : VerifyOutcome :=
  if bytes.length < 3 then .err .tooShort
  else if bytes.getD 0 0 ≠ 0x60 then .err .badResponseByte
  else if bytes.getD 1 0 ≠ reqOpcode then .err .badOpcodeEcho
  else if ResponseCodeValid (bytes.getD 2 0) = false then
    .err (.invalidResponseCode (bytes.getD 2 0))
  else if bytes.getD 2 0 = 0x0B then
    match bytes.get? 3 with
    | none => .panic
    | some b3 => if ExtErrorValid b3 then .err (.extError b3) else .err (.invalidExtCode b3)
  else if bytes.getD 2 0 ≠ 0x01 then .err (.responseError (bytes.getD 2 0))
  else .ok

/-! ## Wire encoding and reply parsing

`set_prn`, `get_crc`, `select_object`, `create_object`, `execute` build
their request payloads with the opcode first and `u32::to_le_bytes` for
integers; replies are decoded with `u32::from_le_bytes` from fixed
little-endian slices.  Rust's `response[a..b]` panics when the reply is
shorter than `b`; modelled as `.panic`. -/

def u32_le_bytes (v : Nat) : List Nat :=
  [v % 2 ^ 8, v / 2 ^ 8 % 2 ^ 8, v / 2 ^ 16 % 2 ^ 8, v / 2 ^ 24 % 2 ^ 8]

def u32_from_le (bs : List Nat) : Nat :=
  bs.getD 0 0 + 2 ^ 8 * bs.getD 1 0 + 2 ^ 16 * bs.getD 2 0 + 2 ^ 24 * bs.getD 3 0

def set_prn_payload (value : Nat) : List Nat := 0x02 :: u32_le_bytes value

def crc_get_payload : List Nat := [0x03]

def select_object_payload (objType : Nat) : List Nat := [0x06, objType]

def create_object_payload (objType len : Nat) : List Nat :=
  0x01 :: objType :: u32_le_bytes (len % 2 ^ 32)

def execute_payload : List Nat := [0x04]

inductive ParseOutcome (α : Type) where
  | ok (a : α)
  | err (e : VerifyErr)
  | panic
deriving DecidableEq, Repr

/-- `DfuTarget::get_crc` processing of a raw reply: verify the response
frame for opcode `CrcGet`, then decode `(offset, checksum)` from bytes
`3..7` and `7..11` little-endian. -/
def get_crc_parse (response : List Nat) : ParseOutcome (Nat × Nat) :=
  match verify_response 0x03 response with
  | .panic => .panic
  | .err e => .err e
  | .ok =>
    if response.length < 7 then .panic
    else if response.length < 11 then .panic
    else .ok (u32_from_le ((response.drop 3).take 4),
              u32_from_le ((response.drop 7).take 4))

/-- `DfuTarget::select_object` processing of a raw reply: verify the
response frame for opcode `ObjectSelect`, then decode
`(max_size, offset, checksum)` from bytes `3..7`, `7..11`, `11..15`. -/
def select_object_parse (response : List Nat) : ParseOutcome (Nat × Nat × Nat) :=
  match verify_response 0x06 response with
  | .panic => .panic
  | .err e => .err e
  | .ok =>
    if response.length < 7 then .panic
    else if response.length < 11 then .panic
    else if response.length < 15 then .panic
    else .ok (u32_from_le ((response.drop 3).take 4),
              u32_from_le ((response.drop 7).take 4),
              u32_from_le ((response.drop 11).take 4))

/-! ## Control-channel request retry policy (`DfuTarget::request_ctrl`)

`for _retry in 0..3 { if let Ok(res) = timeout(500ms, request).await
{ return res; } } Err("No response after multiple tries")`.
The transport is modelled by an oracle giving, for each attempt index,
either a timeout (the 500 ms window elapsed in silence) or a completed
attempt carrying the transport's own result. -/

def CTRL_TIMEOUT_MS : Nat := 500

def CTRL_ATTEMPTS : Nat := 3

inductive TransportReply where
  | ok (bytes : List Nat)
  | err
deriving DecidableEq, Repr

inductive AttemptOutcome where
  | timeout
  | completed (r : TransportReply)
deriving DecidableEq, Repr

inductive RcResult where
  | completed (r : TransportReply)
  | noResponse
deriving DecidableEq, Repr

def requestCtrlGo (o : Nat → AttemptOutcome) : Nat → Nat → RcResult × Nat
  | 0, used => (.noResponse, used)
  | n + 1, used =>
    match o used with
    | .timeout => requestCtrlGo o n (used + 1)
    | .completed r => (.completed r, used + 1)

/-- `request_ctrl` under attempt-outcome oracle `o`; returns the result
together with the number of attempts actually issued. -/
def request_ctrl (o : Nat → AttemptOutcome) : RcResult × Nat :=
  requestCtrlGo o CTRL_ATTEMPTS 0

/-! ## The DFU engine (`dfu_run`), data phase

The engine state carries the two mutable locals of `dfu_run`'s loop
(`offset`, `checksum`) plus `lastCrc`, the `(offset, crc)` checksum value
most recently confirmed by a successful `verify_crc` round-trip.  The
device/transport is an oracle: one `IterBehavior` per loop iteration
records whether `create_object`/`write_data`/`execute` succeeded and what
the `CrcGet` exchange inside `verify_crc` produced. -/

structure DfuState where
  offset : Nat
  checksum : Nat
  lastCrc : Nat
deriving DecidableEq, Repr

inductive CrcAttempt where
  | err
  | reply (off : Nat) (crc : Nat)
deriving DecidableEq, Repr

structure IterBehavior where
  createOk : Bool
  writeOk : Bool
  crc : CrcAttempt
  execOk : Bool
deriving DecidableEq, Repr

inductive Event where
  | setPrn (v : Nat)
  | createObj (objType : Nat) (len : Nat)
  | writeData (bytes : List Nat)
  | crcGet
  | execute
  | selectObj (objType : Nat)
deriving DecidableEq, Repr

inductive FailReason where
  | prnFailed
  | cmdCreateFailed
  | cmdWriteFailed
  | cmdCrcFailed
  | cmdExecFailed
  | selectFailed
  | resumeUnsupported
  | dataCreateFailed
  | dataWriteFailed
  | dataExecFailed
deriving DecidableEq, Repr

inductive RunResult where
  | success (s : DfuState)
  | failure (r : FailReason)
  | outOfTrace (s : DfuState)
deriving DecidableEq, Repr

structure RunOut where
  result : RunResult
  events : List Event
  committed : List (List Nat)
deriving DecidableEq, Repr

/-- The chunk taken at a given offset:
`end = min(fw_pkt.len(), offset + max_size)`, `chunk = &fw_pkt[offset..end]`. -/
def chunkAt (fw : List Nat) (maxSize offset : Nat) : List Nat :=
  (fw.drop offset).take (min fw.length (offset + maxSize) - offset)

/-- The committed state after a successful `verify_crc` of the chunk at
`s.offset`: `checksum = new_checksum`, `offset = new_offset`, and the
last confirmed CRC is `new_checksum`. -/
def commitState (fw : List Nat) (maxSize : Nat) (s : DfuState) : DfuState :=
  { offset := s.offset + (chunkAt fw maxSize s.offset).length
    checksum := crc32 (chunkAt fw maxSize s.offset) s.checksum
    lastCrc := crc32 (chunkAt fw maxSize s.offset) s.checksum }

inductive StepRes where
  | fatal (r : FailReason)
  | retry
  | commit (s : DfuState)
deriving DecidableEq, Repr

/-- One iteration of `dfu_run`'s data loop: create the Data object for the
chunk at the current offset, write it, compute `new_checksum`/`new_offset`,
issue `CrcGet` via `verify_crc`, and either commit+execute, retry with
unchanged state, or fail the run. -/
def dataStep (fw : List Nat) (maxSize : Nat) (s : DfuState) (b : IterBehavior) :
    StepRes × List Event :=
  let chunk := chunkAt fw maxSize s.offset
  if b.createOk = false then (.fatal .dataCreateFailed, [.createObj 2 chunk.length])
  else if b.writeOk = false then
    (.fatal .dataWriteFailed, [.createObj 2 chunk.length, .writeData chunk])
  else
    let newChecksum := crc32 chunk s.checksum
    let newOffset := s.offset + chunk.length
    let evs : List Event := [.createObj 2 chunk.length, .writeData chunk, .crcGet]
    match b.crc with
    | .err => (.retry, evs)
    | .reply off c =>
      if off = newOffset ∧ c = newChecksum then
        if b.execOk then (.commit (commitState fw maxSize s), evs ++ [.execute])
        else (.fatal .dataExecFailed, evs ++ [.execute])
      else (.retry, evs)

/-- The data-phase loop `while offset < fw_pkt.len() { ... }`, driven by a
finite trace of iteration behaviours.  Besides the result it accumulates
the trace of issued requests and the list of successfully committed
chunks, in order. -/
def dataLoop (fw : List Nat) (maxSize : Nat) : List IterBehavior → DfuState → RunOut
  | [], s =>
    if fw.length ≤ s.offset then ⟨.success s, [], []⟩ else ⟨.outOfTrace s, [], []⟩
  | b :: rest, s =>
    if fw.length ≤ s.offset then ⟨.success s, [], []⟩
    else
      match dataStep fw maxSize s b with
      | (.fatal r, evs) => ⟨.failure r, evs, []⟩
      | (.retry, evs) =>
        let lo := dataLoop fw maxSize rest s
        ⟨lo.result, evs ++ lo.events, lo.committed⟩
      | (.commit s2, evs) =>
        let lo := dataLoop fw maxSize rest s2
        ⟨lo.result, evs ++ lo.events, chunkAt fw maxSize s.offset :: lo.committed⟩

/-- Device/transport behaviour for a whole `dfu_run`: outcomes of the
command-object phase operations, the `ObjectSelect(Data)` reply, and the
per-iteration behaviours of the data phase. -/
structure RunBehavior where
  prnOk : Bool
  cmdCreateOk : Bool
  cmdWriteOk : Bool
  cmdCrc : CrcAttempt
  cmdExecOk : Bool
  selectRes : Option (Nat × Nat × Nat)
  iters : List IterBehavior
deriving DecidableEq, Repr

/-- `dfu_run(manager, name, init_pkt, fw_pkt)` under behaviour `beh`:
disable PRN, create/write/verify/execute the Command object carrying the
init packet, `ObjectSelect(Data)`, reject resume when the device reports
nonzero `(offset, crc)`, then run the data-phase loop from
`offset = 0, checksum = 0`. -/
def dfu_run (beh : RunBehavior) (init_pkt fw_pkt : List Nat) : RunOut :=
  let e1 : List Event := [.setPrn 0]
  if beh.prnOk = false then ⟨.failure .prnFailed, e1, []⟩ else
  let e2 := e1 ++ [.createObj 1 init_pkt.length]
  if beh.cmdCreateOk = false then ⟨.failure .cmdCreateFailed, e2, []⟩ else
  let e3 := e2 ++ [.writeData init_pkt]
  if beh.cmdWriteOk = false then ⟨.failure .cmdWriteFailed, e3, []⟩ else
  let e4 := e3 ++ [.crcGet]
  match beh.cmdCrc with
  | .err => ⟨.failure .cmdCrcFailed, e4, []⟩
  | .reply off c =>
    if off = init_pkt.length ∧ c = crc32 init_pkt 0 then
      let e5 := e4 ++ [.execute]
      if beh.cmdExecOk = false then ⟨.failure .cmdExecFailed, e5, []⟩ else
      let e6 := e5 ++ [.selectObj 2]
      match beh.selectRes with
      | none => ⟨.failure .selectFailed, e6, []⟩
      | some (maxSize, off0, crc0) =>
        if off0 ≠ 0 ∨ crc0 ≠ 0 then ⟨.failure .resumeUnsupported, e6, []⟩
        else
          let lo := dataLoop fw_pkt maxSize beh.iters ⟨0, 0, crc32 init_pkt 0⟩
          ⟨lo.result, e6 ++ lo.events, lo.committed⟩
    else ⟨.failure .cmdCrcFailed, e4, []⟩

/-! ## Package extractor (`package.rs`) and CLI dispatch (`main.rs`)

A DFU package is abstracted as its parsed manifest (component name to the
`(dat_file, bin_file)` entry names, `none` when the component object is
missing or malformed) together with the zip's entry contents by name. -/

structure Package where
  manifest : String → Option (String × String)
  files : String → Option (List Nat)

inductive PkgError where
  | missingComponent
  | missingEntry
deriving DecidableEq, Repr

/-- `fn extract(path, component)`: look the component up in
`manifest["manifest"][component]`, then read the `dat_file` entry and the
`bin_file` entry from the archive, in that order. -/
def extract (p : Package) (component : String) : Except PkgError (List Nat × List Nat) :=
  match p.manifest component with
  | none => .error .missingComponent
  | some (datName, binName) =>
    match p.files datName with
    | none => .error .missingEntry
    | some dat =>
      match p.files binName with
      | none => .error .missingEntry
      | some bin => .ok (dat, bin)

def extract_application (p : Package) : Except PkgError (List Nat × List Nat) :=
  extract p "application"

def extract_softdevice_bootloader (p : Package) : Except PkgError (List Nat × List Nat) :=
  extract p "softdevice_bootloader"

/-- Modelled from the spec: `extract_bootloader` is called by `main.rs`
but its definition is not among the provided sources; §6 maps the `bl`
subcommand to manifest key `"bootloader"`. -/
def extract_bootloader (p : Package) : Except PkgError (List Nat × List Nat) :=
  extract p "bootloader"

/-- Modelled from the spec: `extract_softdevice` is called by `main.rs`
but its definition is not among the provided sources; §6 maps the `sd`
subcommand to manifest key `"softdevice"`. -/
def extract_softdevice (p : Package) : Except PkgError (List Nat × List Nat) :=
  extract p "softdevice"

inductive CliCommand where
  | trigger
  | app (pkg : Package)
  | bl (pkg : Package)
  | sd (pkg : Package)
  | sdbl (pkg : Package)

/-- The package extraction performed by `main`'s `match &args.command`:
each firmware subcommand invokes the corresponding extractor; `trigger`
extracts nothing. -/
def mainExtract : CliCommand → Option (Except PkgError (List Nat × List Nat))
  | .trigger => none
  | .app p => some (extract_application p)
  | .bl p => some (extract_bootloader p)
  | .sd p => some (extract_softdevice p)
  | .sdbl p => some (extract_softdevice_bootloader p)

/-! ## Lemmas about the data-phase loop -/

theorem chunkAt_length (fw : List Nat) (maxSize off : Nat) (h : off ≤ fw.length) :
    (chunkAt fw maxSize off).length = min fw.length (off + maxSize) - off := by
  simp only [chunkAt, List.length_take, List.length_drop]
  omega

theorem chunkAt_length_le (fw : List Nat) (maxSize off : Nat) :
    (chunkAt fw maxSize off).length ≤ maxSize := by
  simp only [chunkAt, List.length_take, List.length_drop]
  omega

theorem take_chunkAt (fw : List Nat) (maxSize off : Nat) (h : off ≤ fw.length) :
    fw.take (off + (chunkAt fw maxSize off).length) = fw.take off ++ chunkAt fw maxSize off := by
  rw [List.take_add]
  congr 1
  rw [chunkAt_length fw maxSize off h]
  rfl

/-- The invariant maintained by the data-phase loop: the running checksum
is the CRC of the committed prefix, the offset never exceeds the image,
and once anything was committed the last device-confirmed CRC is the
running checksum. -/
def LoopInv (fw : List Nat) (s : DfuState) : Prop :=
  s.offset ≤ fw.length ∧ s.checksum = crc32 (fw.take s.offset) 0 ∧
    (0 < s.offset → s.lastCrc = s.checksum)

theorem LoopInv_commit (fw : List Nat) (maxSize : Nat) (s : DfuState) (h : LoopInv fw s) :
    LoopInv fw (commitState fw maxSize s) := by
  obtain ⟨h1, h2, _⟩ := h
  refine ⟨?_, ?_, fun _ => rfl⟩
  · simp only [commitState, chunkAt_length fw maxSize s.offset h1]
    omega
  · simp only [commitState]
    rw [h2, crc32_append, ← take_chunkAt fw maxSize s.offset h1]

theorem dataStep_commit_eq (fw : List Nat) (maxSize : Nat) (s s2 : DfuState)
    (b : IterBehavior) (evs : List Event)
    (h : dataStep fw maxSize s b = (.commit s2, evs)) :
    s2 = commitState fw maxSize s := by
  simp only [dataStep] at h
  split at h
  · simp at h
  · split at h
    · simp at h
    · split at h
      · simp at h
      · split at h
        · split at h
          · simp only [Prod.mk.injEq, StepRes.commit.injEq] at h
            exact h.1.symm
          · simp at h
        · simp at h

theorem dataLoop_success_spec (fw : List Nat) (maxSize : Nat) (bs : List IterBehavior) :
    ∀ s s' : DfuState, LoopInv fw s →
      (dataLoop fw maxSize bs s).result = .success s' →
      s'.offset = fw.length ∧ s'.checksum = crc32 fw 0 ∧
        (0 < s'.offset → s'.lastCrc = crc32 fw 0) ∧
        fw.take s.offset ++ (dataLoop fw maxSize bs s).committed.flatten = fw := by
  induction bs with
  | nil =>
    intro s s' hInv hres
    by_cases hle : fw.length ≤ s.offset
    · simp only [dataLoop, if_pos hle, RunResult.success.injEq] at hres
      subst hres
      have hoff : s.offset = fw.length := le_antisymm hInv.1 hle
      refine ⟨hoff, ?_, ?_, ?_⟩
      · rw [hInv.2.1, hoff, List.take_length]
      · intro hpos
        rw [hInv.2.2 hpos, hInv.2.1, hoff, List.take_length]
      · simp only [dataLoop, if_pos hle, List.flatten_nil, List.append_nil]
        rw [hoff, List.take_length]
    · simp [dataLoop, if_neg hle] at hres
  | cons b rest ih =>
    intro s s' hInv hres
    by_cases hle : fw.length ≤ s.offset
    · simp only [dataLoop, if_pos hle, RunResult.success.injEq] at hres
      subst hres
      have hoff : s.offset = fw.length := le_antisymm hInv.1 hle
      refine ⟨hoff, ?_, ?_, ?_⟩
      · rw [hInv.2.1, hoff, List.take_length]
      · intro hpos
        rw [hInv.2.2 hpos, hInv.2.1, hoff, List.take_length]
      · simp only [dataLoop, if_pos hle, List.flatten_nil, List.append_nil]
        rw [hoff, List.take_length]
    · rcases hstep : dataStep fw maxSize s b with ⟨sr, evs⟩
      cases sr with
      | fatal r =>
        simp [dataLoop, if_neg hle, hstep] at hres
      | retry =>
        simp only [dataLoop, if_neg hle, hstep] at hres ⊢
        exact ih s s' hInv hres
      | commit s2 =>
        have hs2 : s2 = commitState fw maxSize s := dataStep_commit_eq fw maxSize s s2 b evs hstep
        subst hs2
        simp only [dataLoop, if_neg hle, hstep] at hres ⊢
        have hInv2 : LoopInv fw (commitState fw maxSize s) := LoopInv_commit fw maxSize s hInv
        obtain ⟨g1, g2, g3, g4⟩ := ih (commitState fw maxSize s) s' hInv2 hres
        refine ⟨g1, g2, g3, ?_⟩
        rw [List.flatten_cons, ← List.append_assoc, ← take_chunkAt fw maxSize s.offset hInv.1]
        simp only [commitState] at g4
        exact g4

/-! ## C1: final offset and confirmed CRC after a successful run -/

/-- C1 (amended): for firmware of length at least 1, if `dfu_run` returns
success then the engine's final offset equals `len(firmware)` and the
checksum the device last confirmed via `verify_crc` (as well as the
engine's running checksum) equals `crc32(firmware, 0)`. -/
theorem C1_dfu_run_success_offset_crc (beh : RunBehavior) (init_pkt fw_pkt : List Nat)
    (s' : DfuState) (hfw : 1 ≤ fw_pkt.length)
    (h : (dfu_run beh init_pkt fw_pkt).result = .success s') :
    s'.offset = fw_pkt.length ∧ s'.lastCrc = crc32 fw_pkt 0 ∧
      s'.checksum = crc32 fw_pkt 0 := by
  simp only [dfu_run] at h
  split at h
  · simp at h
  · split at h
    · simp at h
    · split at h
      · simp at h
      · split at h
        · simp at h
        · split at h
          · split at h
            · simp at h
            · split at h
              · simp at h
              · split at h
                · simp at h
                · -- data-loop branch
                  have hInv0 : LoopInv fw_pkt ⟨0, 0, crc32 init_pkt 0⟩ :=
                    ⟨Nat.zero_le _, by simp [crc32_nil], fun hc => absurd hc (by simp)⟩
                  obtain ⟨g1, g2, g3, _⟩ :=
                    dataLoop_success_spec fw_pkt _ beh.iters _ s' hInv0 h
                  exact ⟨g1, g3 (by omega), g2⟩
          · simp at h

theorem C1_dfu_run_success_offset_crc_wit :
    (⟨4, crc32 [1, 2, 3, 4] 0, crc32 [1, 2, 3, 4] 0⟩ : DfuState).offset =
      ([1, 2, 3, 4] : List Nat).length ∧
    (⟨4, crc32 [1, 2, 3, 4] 0, crc32 [1, 2, 3, 4] 0⟩ : DfuState).lastCrc = crc32 [1, 2, 3, 4] 0 ∧
    (⟨4, crc32 [1, 2, 3, 4] 0, crc32 [1, 2, 3, 4] 0⟩ : DfuState).checksum = crc32 [1, 2, 3, 4] 0 :=
  C1_dfu_run_success_offset_crc
    ⟨true, true, true, .reply 2 (crc32 [0xAA, 0xBB] 0), true, some (4096, 0, 0),
      [⟨true, true, .reply 4 (crc32 [1, 2, 3, 4] 0), true⟩]⟩
    [0xAA, 0xBB] [1, 2, 3, 4]
    ⟨4, crc32 [1, 2, 3, 4] 0, crc32 [1, 2, 3, 4] 0⟩
    (by decide) (by decide)

/-- Device/transport behaviour exhibiting the C1 counterexample: every
operation succeeds, the device's select reply reports fresh state, and
the firmware image is empty, so the loop body never runs. -/
def cexBehC1 : RunBehavior :=
  ⟨true, true, true, .reply 1 (crc32 [0] 0), true, some (4096, 0, 0), []⟩

/-- C1 as stated fails at `init_pkt = [0x00]`, `fw_pkt = []`: the run
succeeds (the data loop never executes), yet the checksum last confirmed
via `verify_crc` is the init packet's CRC, not `crc32([], 0) = 0`. -/
theorem C1_cex_empty_firmware :
    (dfu_run cexBehC1 [0] []).result = .success ⟨0, 0, crc32 [0] 0⟩ ∧
    (⟨0, 0, crc32 [0] 0⟩ : DfuState).offset = ([] : List Nat).length ∧
    (⟨0, 0, crc32 [0] 0⟩ : DfuState).lastCrc ≠ crc32 ([] : List Nat) 0 := by
  refine ⟨by decide, rfl, by decide⟩

/-! ## C2: failed CRC verification does not advance the engine -/

/-- Mirrors the `is_err()` test on `verify_crc(new_offset, new_checksum)`
for the chunk at the current offset: the `CrcGet` request itself erred, or
the device's reply disagrees with the expected offset or checksum. -/
def crcFails (fw : List Nat) (maxSize : Nat) (s : DfuState) (b : IterBehavior) : Bool :=
  match b.crc with
  | .err => true
  | .reply off c =>
    !(decide (off = s.offset + (chunkAt fw maxSize s.offset).length) &&
      decide (c = crc32 (chunkAt fw maxSize s.offset) s.checksum))

/-- C2: in a data-phase iteration whose `create_object` and `write_data`
succeed but whose `verify_crc` fails, the step retries with exactly the
events create/write/crc-get (no `ObjectExecute`), the loop continues from
the unchanged state (so the next iteration re-creates and re-writes the
same chunk, as any successful next step writes that chunk first), and no
commit is possible. -/
theorem C2_verify_fail_no_advance (fw : List Nat) (maxSize : Nat) (s s2 : DfuState)
    (b b2 : IterBehavior) (rest : List IterBehavior) (evs : List Event)
    (hoff : s.offset < fw.length)
    (hc : b.createOk = true) (hw : b.writeOk = true)
    (hfail : crcFails fw maxSize s b = true)
    (hb2c : b2.createOk = true) (hb2w : b2.writeOk = true) :
    dataStep fw maxSize s b =
      (.retry, [.createObj 2 (chunkAt fw maxSize s.offset).length,
                .writeData (chunkAt fw maxSize s.offset), .crcGet]) ∧
    Event.execute ∉ (dataStep fw maxSize s b).2 ∧
    dataLoop fw maxSize (b :: rest) s =
      ⟨(dataLoop fw maxSize rest s).result,
       (dataStep fw maxSize s b).2 ++ (dataLoop fw maxSize rest s).events,
       (dataLoop fw maxSize rest s).committed⟩ ∧
    (dataStep fw maxSize s b2).2.take 2 =
      [.createObj 2 (chunkAt fw maxSize s.offset).length,
       .writeData (chunkAt fw maxSize s.offset)] ∧
    (dataStep fw maxSize s b = (.commit s2, evs) → False) := by
  have hnle : ¬ fw.length ≤ s.offset := by omega
  have h1 : dataStep fw maxSize s b =
      (.retry, [.createObj 2 (chunkAt fw maxSize s.offset).length,
                .writeData (chunkAt fw maxSize s.offset), .crcGet]) := by
    simp only [dataStep, hc, hw]
    cases hcrc : b.crc with
    | err => simp
    | reply off c =>
      simp only [crcFails, hcrc, Bool.not_eq_true', Bool.and_eq_false_iff,
        decide_eq_false_iff_not] at hfail
      simp only [Bool.true_eq_false, if_false]
      rw [if_neg]
      rcases hfail with h | h
      · exact fun hand => h hand.1
      · exact fun hand => h hand.2
  refine ⟨h1, ?_, ?_, ?_, ?_⟩
  · rw [h1]
    simp
  · simp only [dataLoop, if_neg hnle, h1]
  · simp only [dataStep, hb2c, hb2w]
    cases hcrc : b2.crc with
    | err => simp
    | reply off c =>
      simp only [Bool.true_eq_false, if_false]
      split
      · cases b2.execOk <;> simp
      · simp
  · rw [h1]
    simp

theorem C2_verify_fail_no_advance_wit :
    dataStep [5, 6] 10 ⟨0, 0, 0⟩ ⟨true, true, .err, true⟩ =
      (.retry, [.createObj 2 (chunkAt [5, 6] 10 0).length,
                .writeData (chunkAt [5, 6] 10 0), .crcGet]) ∧
    Event.execute ∉ (dataStep [5, 6] 10 ⟨0, 0, 0⟩ ⟨true, true, .err, true⟩).2 ∧
    dataLoop [5, 6] 10 [⟨true, true, .err, true⟩] ⟨0, 0, 0⟩ =
      ⟨(dataLoop [5, 6] 10 [] ⟨0, 0, 0⟩).result,
       (dataStep [5, 6] 10 ⟨0, 0, 0⟩ ⟨true, true, .err, true⟩).2 ++
         (dataLoop [5, 6] 10 [] ⟨0, 0, 0⟩).events,
       (dataLoop [5, 6] 10 [] ⟨0, 0, 0⟩).committed⟩ ∧
    (dataStep [5, 6] 10 ⟨0, 0, 0⟩ ⟨true, true, .err, true⟩).2.take 2 =
      [.createObj 2 (chunkAt [5, 6] 10 0).length, .writeData (chunkAt [5, 6] 10 0)] ∧
    (dataStep [5, 6] 10 ⟨0, 0, 0⟩ ⟨true, true, .err, true⟩ = (.commit ⟨0, 0, 0⟩, []) → False) :=
  C2_verify_fail_no_advance [5, 6] 10 ⟨0, 0, 0⟩ ⟨0, 0, 0⟩
    ⟨true, true, .err, true⟩ ⟨true, true, .err, true⟩ [] []
    (by decide) rfl rfl (by decide) rfl rfl

/-! ## C3: response validation succeeds exactly on well-framed Success replies -/

/-- C3: `verify_response` succeeds iff the reply is at least 3 bytes,
starts with 0x60, echoes the request opcode, and carries result code
0x01 (Success); a well-framed 0x0B (ExtError) reply surfaces an error
derived from the extended code in byte 3; any other well-framed
non-Success result code is surfaced as that response code (as a
conversion error carrying the byte when it is no valid code). -/
theorem C3_verify_response_spec (R : Nat) (bytes : List Nat) (b3 : Nat) :
    (verify_response R bytes = .ok ↔
      (3 ≤ bytes.length ∧ bytes.getD 0 0 = 0x60 ∧ bytes.getD 1 0 = R ∧
        bytes.getD 2 0 = 0x01)) ∧
    (3 ≤ bytes.length → bytes.getD 0 0 = 0x60 → bytes.getD 1 0 = R →
      bytes.getD 2 0 = 0x0B → bytes.get? 3 = some b3 →
      verify_response R bytes =
        .err (if b3 ≤ 0x0D then .extError b3 else .invalidExtCode b3)) ∧
    (3 ≤ bytes.length → bytes.getD 0 0 = 0x60 → bytes.getD 1 0 = R →
      ResponseCodeValid (bytes.getD 2 0) = true →
      bytes.getD 2 0 ≠ 0x01 → bytes.getD 2 0 ≠ 0x0B →
      verify_response R bytes = .err (.responseError (bytes.getD 2 0))) ∧
    (3 ≤ bytes.length → bytes.getD 0 0 = 0x60 → bytes.getD 1 0 = R →
      ResponseCodeValid (bytes.getD 2 0) = false →
      verify_response R bytes = .err (.invalidResponseCode (bytes.getD 2 0))) := by
  simp only [List.getD, List.get?_eq_getElem?]
  refine ⟨⟨?_, ?_⟩, ?_, ?_, ?_⟩
  · intro h
    unfold verify_response at h
    simp only [List.getD, List.get?_eq_getElem?] at h
    repeat' split at h
    all_goals first
      | (refine ⟨by omega, by simp_all, by simp_all, by simp_all⟩)
      | (exfalso; simp_all)
  · rintro ⟨h1, h2, h3, h4⟩
    unfold verify_response
    simp only [List.getD, List.get?_eq_getElem?]
    rw [if_neg (by omega), if_neg (by simp [h2]), if_neg (by simp [h3]), h4]
    rw [if_neg (by simp [ResponseCodeValid]), if_neg (by simp), if_neg (by simp)]
  · intro h1 h2 h3 h4 h5
    unfold verify_response
    simp only [List.getD, List.get?_eq_getElem?]
    rw [if_neg (by omega), if_neg (by simp [h2]), if_neg (by simp [h3]), h4]
    rw [if_neg (by simp [ResponseCodeValid]), if_pos rfl, h5]
    by_cases hb : b3 ≤ 0x0D <;> simp [ExtErrorValid, hb]
  · intro h1 h2 h3 h4 h5 h6
    unfold verify_response
    simp only [List.getD, List.get?_eq_getElem?]
    rw [if_neg (by omega), if_neg (by simp [h2]), if_neg (by simp [h3])]
    rw [if_neg (by simp [h4]), if_neg h6, if_pos h5]
  · intro h1 h2 h3 h4
    unfold verify_response
    simp only [List.getD, List.get?_eq_getElem?]
    rw [if_neg (by omega), if_neg (by simp [h2]), if_neg (by simp [h3]), if_pos h4]

theorem C3_verify_response_spec_wit :
    verify_response 0x03 [0x60, 0x03, 0x0B, 0x04] = .err (.extError 0x04) := by
  have h := (C3_verify_response_spec 0x03 [0x60, 0x03, 0x0B, 0x04] 0x04).2.1
  simpa using h (by decide) (by decide) (by decide) (by decide) (by decide)

/-! ## C4: control-request retries -/

/-- C4: every control request makes at most 3 attempts; when the first
`i` attempts time out and attempt `i` (for `i < 3`) completes — with a
transport error or a reply — that completion is returned immediately
after `i + 1` attempts; three timed-out attempts yield the no-response
error; the per-attempt window is the 500 ms constant. -/
theorem C4_request_ctrl_retry_policy (o : Nat → AttemptOutcome) (i : Nat)
    (r : TransportReply) :
    (request_ctrl o).2 ≤ 3 ∧
    (i < 3 → (∀ j, j < i → o j = .timeout) → o i = .completed r →
      request_ctrl o = (.completed r, i + 1)) ∧
    ((∀ j, j < 3 → o j = .timeout) → request_ctrl o = (.noResponse, 3)) ∧
    CTRL_TIMEOUT_MS = 500 ∧ CTRL_ATTEMPTS = 3 := by
  refine ⟨?_, ?_, ?_, rfl, rfl⟩
  · rcases h0 : o 0 with _ | r0
    · rcases h1 : o 1 with _ | r1
      · rcases h2 : o 2 with _ | r2 <;>
          simp [request_ctrl, CTRL_ATTEMPTS, requestCtrlGo, h0, h1, h2]
      · simp [request_ctrl, CTRL_ATTEMPTS, requestCtrlGo, h0, h1]
    · simp [request_ctrl, CTRL_ATTEMPTS, requestCtrlGo, h0]
  · intro hi hprev hcomp
    interval_cases i
    · simp [request_ctrl, CTRL_ATTEMPTS, requestCtrlGo, hcomp]
    · simp [request_ctrl, CTRL_ATTEMPTS, requestCtrlGo, hprev 0 (by omega), hcomp]
    · simp [request_ctrl, CTRL_ATTEMPTS, requestCtrlGo,
        hprev 0 (by omega), hprev 1 (by omega), hcomp]
  · intro hall
    simp [request_ctrl, CTRL_ATTEMPTS, requestCtrlGo,
      hall 0 (by omega), hall 1 (by omega), hall 2 (by omega)]

theorem C4_request_ctrl_retry_policy_wit :
    request_ctrl (fun n => if n < 2 then .timeout else .completed (.ok [0x60, 0x02, 0x01])) =
      (.completed (.ok [0x60, 0x02, 0x01]), 3) :=
  (C4_request_ctrl_retry_policy
    (fun n => if n < 2 then .timeout else .completed (.ok [0x60, 0x02, 0x01]))
    2 (.ok [0x60, 0x02, 0x01])).2.1
    (by decide) (by decide) (by decide)

/-! ## C5: resume is rejected before any Data object is touched -/

/-- C5: when the command phase succeeds and `ObjectSelect(Data)` reports a
nonzero offset or CRC, `dfu_run` fails with the resume-unsupported error;
its request trace stops at the select, contains no `ObjectCreate(Data, _)`
and no data-channel write other than the init packet, and nothing is
committed. -/
theorem C5_resume_rejected (beh : RunBehavior) (init_pkt fw_pkt : List Nat)
    (m off0 crc0 l : Nat) (ws : List Nat)
    (h1 : beh.prnOk = true) (h2 : beh.cmdCreateOk = true) (h3 : beh.cmdWriteOk = true)
    (h4 : beh.cmdCrc = .reply init_pkt.length (crc32 init_pkt 0))
    (h5 : beh.cmdExecOk = true)
    (h6 : beh.selectRes = some (m, off0, crc0))
    (h7 : off0 ≠ 0 ∨ crc0 ≠ 0) :
    dfu_run beh init_pkt fw_pkt =
      ⟨.failure .resumeUnsupported,
       [.setPrn 0, .createObj 1 init_pkt.length, .writeData init_pkt,
        .crcGet, .execute, .selectObj 2], []⟩ ∧
    Event.createObj 2 l ∉ (dfu_run beh init_pkt fw_pkt).events ∧
    (Event.writeData ws ∈ (dfu_run beh init_pkt fw_pkt).events → ws = init_pkt) ∧
    (dfu_run beh init_pkt fw_pkt).committed = [] := by
  have hrun : dfu_run beh init_pkt fw_pkt =
      ⟨.failure .resumeUnsupported,
       [.setPrn 0, .createObj 1 init_pkt.length, .writeData init_pkt,
        .crcGet, .execute, .selectObj 2], []⟩ := by
    simp only [dfu_run, h1, h2, h3, h4, h5, h6, Bool.true_eq_false, if_false]
    rw [if_pos ⟨trivial, trivial⟩, if_pos h7]
    simp
  refine ⟨hrun, ?_, ?_, ?_⟩
  · rw [hrun]
    simp
  · rw [hrun]
    intro hmem
    simp only [List.mem_cons, List.not_mem_nil, or_false] at hmem
    rcases hmem with h | h | h | h | h | h <;> first | (cases h; rfl) | simp_all
  · rw [hrun]

theorem C5_resume_rejected_wit :
    dfu_run ⟨true, true, true, .reply 1 (crc32 [0xAA] 0), true, some (4096, 32, 0xDEADBEEF), []⟩
        [0xAA] [1] =
      ⟨.failure .resumeUnsupported,
       [.setPrn 0, .createObj 1 ([0xAA] : List Nat).length, .writeData [0xAA],
        .crcGet, .execute, .selectObj 2], []⟩ ∧
    Event.createObj 2 7 ∉
      (dfu_run ⟨true, true, true, .reply 1 (crc32 [0xAA] 0), true,
        some (4096, 32, 0xDEADBEEF), []⟩ [0xAA] [1]).events ∧
    (Event.writeData [9] ∈
      (dfu_run ⟨true, true, true, .reply 1 (crc32 [0xAA] 0), true,
        some (4096, 32, 0xDEADBEEF), []⟩ [0xAA] [1]).events → [9] = [0xAA]) ∧
    (dfu_run ⟨true, true, true, .reply 1 (crc32 [0xAA] 0), true,
      some (4096, 32, 0xDEADBEEF), []⟩ [0xAA] [1]).committed = [] :=
  C5_resume_rejected
    ⟨true, true, true, .reply 1 (crc32 [0xAA] 0), true, some (4096, 32, 0xDEADBEEF), []⟩
    [0xAA] [1] 4096 32 0xDEADBEEF 7 [9]
    rfl rfl rfl rfl rfl rfl (by decide)

/-! ## C6: chunking, concatenation and the number of Data objects -/

def isDataCreate : Event → Bool
  | .createObj 2 _ => true
  | _ => false

/-- A device/transport behaviour for one iteration that lets the iteration
commit: `create_object`, `write_data` and `execute` succeed and the
`CrcGet` reply matches the expected `(new_offset, new_checksum)`. -/
def compliantIter (fw : List Nat) (maxSize : Nat) (s : DfuState) (b : IterBehavior) : Bool :=
  b.createOk && b.writeOk && b.execOk &&
    decide (b.crc = .reply (s.offset + (chunkAt fw maxSize s.offset).length)
                          (crc32 (chunkAt fw maxSize s.offset) s.checksum))

/-- Every consulted iteration behaviour is compliant (a retry-free,
error-free device) along the loop from the given state. -/
def allCompliant (fw : List Nat) (maxSize : Nat) : List IterBehavior → DfuState → Bool
  | [], _ => true
  | b :: bs, s =>
    if fw.length ≤ s.offset then true
    else compliantIter fw maxSize s b && allCompliant fw maxSize bs (commitState fw maxSize s)

theorem dataStep_compliant (fw : List Nat) (maxSize : Nat) (s : DfuState) (b : IterBehavior)
    (h : compliantIter fw maxSize s b = true) :
    dataStep fw maxSize s b =
      (.commit (commitState fw maxSize s),
       [.createObj 2 (chunkAt fw maxSize s.offset).length,
        .writeData (chunkAt fw maxSize s.offset), .crcGet, .execute]) := by
  simp only [compliantIter, Bool.and_eq_true, decide_eq_true_eq] at h
  obtain ⟨⟨⟨h1, h2⟩, h3⟩, h4⟩ := h
  simp [dataStep, h1, h2, h3, h4]

theorem ceil_div_step (r m : Nat) (hr : 1 ≤ r) (hm : 1 ≤ m) :
    (r + m - 1) / m = (r - m + m - 1) / m + 1 := by
  rcases Nat.le_total r m with h | h
  · have e0 : r - m = 0 := by omega
    have e1 : r + m - 1 = (r - 1) + m := by omega
    have e2 : (0 : Nat) + m - 1 = m - 1 := by omega
    rw [e0, e1, e2, Nat.add_div_right _ (by omega : 0 < m)]
    rw [Nat.div_eq_of_lt (by omega : r - 1 < m), Nat.div_eq_of_lt (by omega : m - 1 < m)]
  · have e1 : r + m - 1 = (r - 1) + m := by omega
    have e2 : r - m + m - 1 = r - 1 := by omega
    rw [e1, e2, Nat.add_div_right _ (by omega : 0 < m)]

theorem dataLoop_create_count (fw : List Nat) (maxSize : Nat) (hm : 1 ≤ maxSize)
    (bs : List IterBehavior) :
    ∀ s s' : DfuState, s.offset ≤ fw.length →
      allCompliant fw maxSize bs s = true →
      (dataLoop fw maxSize bs s).result = .success s' →
      (dataLoop fw maxSize bs s).events.countP isDataCreate =
        (fw.length - s.offset + maxSize - 1) / maxSize := by
  induction bs with
  | nil =>
    intro s s' hle _ hres
    by_cases ho : fw.length ≤ s.offset
    · simp only [dataLoop, if_pos ho]
      have e0 : fw.length - s.offset = 0 := by omega
      rw [e0, List.countP_nil]
      exact (Nat.div_eq_of_lt (by omega)).symm
    · simp [dataLoop, if_neg ho] at hres
  | cons b rest ih =>
    intro s s' hle hcomp hres
    by_cases ho : fw.length ≤ s.offset
    · simp only [dataLoop, if_pos ho]
      have e0 : fw.length - s.offset = 0 := by omega
      rw [e0, List.countP_nil]
      exact (Nat.div_eq_of_lt (by omega)).symm
    · simp only [allCompliant, if_neg ho, Bool.and_eq_true] at hcomp
      obtain ⟨hci, hcr⟩ := hcomp
      have hstep := dataStep_compliant fw maxSize s b hci
      simp only [dataLoop, if_neg ho, hstep] at hres ⊢
      have hcl := chunkAt_length fw maxSize s.offset hle
      have hle2 : (commitState fw maxSize s).offset ≤ fw.length := by
        simp only [commitState, hcl]
        omega
      have ihr := ih (commitState fw maxSize s) s' hle2 hcr hres
      rw [List.countP_append, ihr]
      have hc4 : List.countP isDataCreate
          [Event.createObj 2 (chunkAt fw maxSize s.offset).length,
           Event.writeData (chunkAt fw maxSize s.offset), Event.crcGet, Event.execute] = 1 := by
        simp [List.countP_cons, isDataCreate]
      rw [hc4]
      have e1 : fw.length - (commitState fw maxSize s).offset =
          (fw.length - s.offset) - maxSize := by
        simp only [commitState, hcl]
        omega
      rw [e1, ceil_div_step (fw.length - s.offset) maxSize (by omega) hm]
      exact Nat.add_comm _ _

/-- C6: every data-phase chunk is `fw[offset .. min(len fw, offset + max)]`
and hence at most `max_size` long; when the loop from the initial state
succeeds, the committed chunks concatenate to exactly the firmware image;
and under a compliant (retry-free) device it issues exactly
`ceil(len(firmware) / max_size)` `ObjectCreate(Data, _)` requests. -/
theorem C6_chunking_spec (fw : List Nat) (maxSize off c0 : Nat) (bs : List IterBehavior)
    (s' : DfuState) (hfw : 1 ≤ fw.length) (hm : 1 ≤ maxSize)
    (hsucc : (dataLoop fw maxSize bs ⟨0, 0, c0⟩).result = .success s')
    (hcomp : allCompliant fw maxSize bs ⟨0, 0, c0⟩ = true) :
    chunkAt fw maxSize off = (fw.drop off).take (min fw.length (off + maxSize) - off) ∧
    (chunkAt fw maxSize off).length ≤ maxSize ∧
    (dataLoop fw maxSize bs ⟨0, 0, c0⟩).committed.flatten = fw ∧
    (dataLoop fw maxSize bs ⟨0, 0, c0⟩).events.countP isDataCreate =
      (fw.length + maxSize - 1) / maxSize := by
  have hInv0 : LoopInv fw ⟨0, 0, c0⟩ :=
    ⟨Nat.zero_le _, by simp [crc32_nil], fun hc => absurd hc (by simp)⟩
  obtain ⟨_, _, _, g4⟩ := dataLoop_success_spec fw maxSize bs _ s' hInv0 hsucc
  refine ⟨rfl, chunkAt_length_le fw maxSize off, ?_, ?_⟩
  · simpa using g4
  · have := dataLoop_create_count fw maxSize hm bs ⟨0, 0, c0⟩ s' (Nat.zero_le _) hcomp hsucc
    simpa using this

theorem C6_chunking_spec_wit :
    chunkAt [1, 2, 3] 2 5 = (([1, 2, 3] : List Nat).drop 5).take
      (min ([1, 2, 3] : List Nat).length (5 + 2) - 5) ∧
    (chunkAt [1, 2, 3] 2 5).length ≤ 2 ∧
    (dataLoop [1, 2, 3] 2
      [⟨true, true, .reply 2 (crc32 [1, 2] 0), true⟩,
       ⟨true, true, .reply 3 (crc32 [3] (crc32 [1, 2] 0)), true⟩] ⟨0, 0, 0⟩).committed.flatten =
      [1, 2, 3] ∧
    (dataLoop [1, 2, 3] 2
      [⟨true, true, .reply 2 (crc32 [1, 2] 0), true⟩,
       ⟨true, true, .reply 3 (crc32 [3] (crc32 [1, 2] 0)), true⟩] ⟨0, 0, 0⟩).events.countP
        isDataCreate = (([1, 2, 3] : List Nat).length + 2 - 1) / 2 :=
  C6_chunking_spec [1, 2, 3] 2 5 0
    [⟨true, true, .reply 2 (crc32 [1, 2] 0), true⟩,
     ⟨true, true, .reply 3 (crc32 [3] (crc32 [1, 2] 0)), true⟩]
    ⟨3, crc32 [3] (crc32 [1, 2] 0), crc32 [3] (crc32 [1, 2] 0)⟩
    (by decide) (by decide) (by decide) (by decide)

/-! ## C8: wire encoding is little-endian and round-trips -/

theorem u32_roundtrip (v : Nat) (hv : v < 2 ^ 32) :
    u32_from_le (u32_le_bytes v) = v := by
  simp only [u32_le_bytes, u32_from_le, List.getD_cons_zero, List.getD_cons_succ]
  omega

/-- C8: every request payload starts with its opcode and encodes integers
as `to_le_bytes`; decoding the little-endian bytes recovers any `u32`;
and parsing a well-formed Success `CrcGet` reply (bytes 3..11) or
`ObjectSelect` reply (bytes 3..15) recovers exactly the encoded
`(offset, crc)` and `(max_size, offset, crc)`. -/
theorem C8_wire_encoding (v t len off crc m : Nat)
    (hv : v < 2 ^ 32) (hoff : off < 2 ^ 32) (hcrc : crc < 2 ^ 32) (hm : m < 2 ^ 32) :
    set_prn_payload v =
      [0x02, v % 2 ^ 8, v / 2 ^ 8 % 2 ^ 8, v / 2 ^ 16 % 2 ^ 8, v / 2 ^ 24 % 2 ^ 8] ∧
    crc_get_payload = [0x03] ∧
    select_object_payload t = [0x06, t] ∧
    create_object_payload t len = [0x01, t] ++ u32_le_bytes (len % 2 ^ 32) ∧
    execute_payload = [0x04] ∧
    u32_from_le (u32_le_bytes v) = v ∧
    get_crc_parse ([0x60, 0x03, 0x01] ++ u32_le_bytes off ++ u32_le_bytes crc) =
      .ok (off, crc) ∧
    select_object_parse
        ([0x60, 0x06, 0x01] ++ u32_le_bytes m ++ u32_le_bytes off ++ u32_le_bytes crc) =
      .ok (m, off, crc) := by
  refine ⟨rfl, rfl, rfl, rfl, rfl, u32_roundtrip v hv, ?_, ?_⟩
  · simp only [u32_le_bytes, List.cons_append, List.nil_append]
    simp [get_crc_parse, verify_response, ResponseCodeValid]
    constructor <;> [skip; skip] <;> {
      simp only [u32_from_le, List.getD_cons_zero, List.getD_cons_succ]
      omega
    }
  · simp only [u32_le_bytes, List.cons_append, List.nil_append]
    simp [select_object_parse, verify_response, ResponseCodeValid]
    refine ⟨?_, ?_, ?_⟩ <;> {
      simp only [u32_from_le, List.getD_cons_zero, List.getD_cons_succ]
      omega
    }

theorem C8_wire_encoding_wit :
    get_crc_parse ([0x60, 0x03, 0x01] ++ u32_le_bytes 4 ++ u32_le_bytes 0xDEADBEEF) =
      .ok (4, 0xDEADBEEF) :=
  (C8_wire_encoding 0 0 0 4 0xDEADBEEF 0
    (by decide) (by decide) (by decide) (by decide)).2.2.2.2.2.2.1

/-! ## C9: CLI subcommand to manifest component mapping -/

/-- C9: each firmware subcommand extracts exactly its manifest component —
`app → application`, `bl → bootloader`, `sd → softdevice`,
`sdbl → softdevice_bootloader` — and returns that component's
`(dat, bin)` byte blobs. -/
theorem C9_component_mapping (p : Package) (dn bn : String) (dat bin : List Nat) :
    mainExtract (.app p) = some (extract p "application") ∧
    mainExtract (.bl p) = some (extract p "bootloader") ∧
    mainExtract (.sd p) = some (extract p "softdevice") ∧
    mainExtract (.sdbl p) = some (extract p "softdevice_bootloader") ∧
    mainExtract .trigger = none ∧
    (p.manifest "application" = some (dn, bn) → p.files dn = some dat →
      p.files bn = some bin → mainExtract (.app p) = some (.ok (dat, bin))) ∧
    (p.manifest "bootloader" = some (dn, bn) → p.files dn = some dat →
      p.files bn = some bin → mainExtract (.bl p) = some (.ok (dat, bin))) ∧
    (p.manifest "softdevice" = some (dn, bn) → p.files dn = some dat →
      p.files bn = some bin → mainExtract (.sd p) = some (.ok (dat, bin))) ∧
    (p.manifest "softdevice_bootloader" = some (dn, bn) → p.files dn = some dat →
      p.files bn = some bin → mainExtract (.sdbl p) = some (.ok (dat, bin))) := by
  refine ⟨rfl, rfl, rfl, rfl, rfl, ?_, ?_, ?_, ?_⟩ <;> {
    intro h1 h2 h3
    simp [mainExtract, extract_application, extract_bootloader, extract_softdevice,
      extract_softdevice_bootloader, extract, h1, h2, h3]
  }

/-- Concrete package for the C9 witness. -/
def pkgWit : Package :=
  { manifest := fun c => if c = "application" then some ("a.dat", "a.bin") else none
    files := fun n =>
      if n = "a.dat" then some [1] else if n = "a.bin" then some [2] else none }

theorem C9_component_mapping_wit :
    mainExtract (.app pkgWit) = some (.ok ([1], [2])) :=
  (C9_component_mapping pkgWit "a.dat" "a.bin" [1] [2]).2.2.2.2.2.1 rfl rfl rfl

/-! ## C10: reply parsing is not total on validation-admissible replies -/

/-- C10: a 3-byte reply with result code 0x0B passes the length/header
checks yet makes `verify_response` read index 3 out of bounds; a Success
`CrcGet` reply shorter than 11 bytes and a Success `ObjectSelect` reply
shorter than 15 bytes pass verification yet make `get_crc` /
`select_object` slice past the end of the reply. -/
theorem C10_parse_not_total :
    verify_response 0x03 [0x60, 0x03, 0x0B] = .panic ∧
    3 ≤ ([0x60, 0x03, 0x0B] : List Nat).length ∧
    verify_response 0x03 [0x60, 0x03, 0x01] = .ok ∧
    get_crc_parse [0x60, 0x03, 0x01] = .panic ∧
    ([0x60, 0x03, 0x01] : List Nat).length < 11 ∧
    verify_response 0x06 [0x60, 0x06, 0x01, 0, 0, 0, 0, 0, 0, 0, 0] = .ok ∧
    select_object_parse [0x60, 0x06, 0x01, 0, 0, 0, 0, 0, 0, 0, 0] = .panic ∧
    ([0x60, 0x06, 0x01, 0, 0, 0, 0, 0, 0, 0, 0] : List Nat).length < 15 := by
  decide
